import Mathlib

/-!
Shallow embedding of the job-hunting orchestration layer
(`job-hunt-agent-new.py`).

The program is a thin layer between a web-extraction provider
(`firecrawl.extract`) and a language-model provider (`agent.run`).
Both providers are external services; we model them as oracles
(`Providers`) mapping the request the code builds to either a returned
value or a raised exception (`Except String`, the error carrying
`str(e)` of the Python exception).

Python runtime values coming back from the extraction provider are
modelled by `PyVal` with Python truthiness, `dict.get`, `dict[key]`
(raising `KeyError`) and `.get` on a non-dict (raising
`AttributeError`).

The orchestrators `find_jobs` and `get_industry_trends` return the
string the Python function returns, paired with the number of times the
language model was invoked (instrumentation for the call-count
properties).  The Streamlit form and the pydantic schema objects are
outside the orchestration core; the part of `main` that sequences the
two orchestrator calls is modelled by `mainFlow` as a list of UI
events.
-/

/-- Python runtime values, as far as the orchestrators inspect them. -/
inductive PyVal where
  | none : PyVal
  | bool : Bool → PyVal
  | int : Int → PyVal
  | str : String → PyVal
  | list : List PyVal → PyVal
  | dict : List (String × PyVal) → PyVal

/-- Python truthiness (`bool(v)`), as used by `if raw_response.get('success')`
and `if not jobs`. -/
def truthy : PyVal → Bool
  | PyVal.none => false
  | PyVal.bool b => b
  | PyVal.int n => n != 0
  | PyVal.str s => !s.isEmpty
  | PyVal.list xs => !xs.isEmpty
  | PyVal.dict es => !es.isEmpty

/-- `isinstance(v, dict)`. -/
def isDict : PyVal → Bool
  | PyVal.dict _ => true
  | _ => false

/-- Python type name, used in exception messages. -/
def pyTypeName : PyVal → String
  | PyVal.none => "NoneType"
  | PyVal.bool _ => "bool"
  | PyVal.int _ => "int"
  | PyVal.str _ => "str"
  | PyVal.list _ => "list"
  | PyVal.dict _ => "dict"

/-- `v.get(key)` on a dict, `None` when the key is missing.  The code only
calls this after an `isinstance(v, dict)` guard; on a non-dict we return
`None` (the guard makes the case unreachable). -/
def pyGet (v : PyVal) (key : String) : PyVal :=
  match v with
  | PyVal.dict es => (es.lookup key).getD PyVal.none
  | _ => PyVal.none

/-- `v[key]`: raises `KeyError(key)` (whose `str` is the quoted key) when the
key is missing, `TypeError` when `v` is not a dict. -/
def pyGetItem (v : PyVal) (key : String) : Except String PyVal :=
  match v with
  | PyVal.dict es =>
    match es.lookup key with
    | some x => Except.ok x
    | Option.none => Except.error ("\x27" ++ key ++ "\x27")
  | _ => Except.error ("\x27" ++ pyTypeName v ++ "\x27 object is not subscriptable")

/-- `v.get(key, dflt)`: raises `AttributeError` when `v` is not a dict. -/
def pyMethodGet (v : PyVal) (key : String) (dflt : PyVal) : Except String PyVal :=
  match v with
  | PyVal.dict es => Except.ok ((es.lookup key).getD dflt)
  | _ => Except.error ("\x27" ++ pyTypeName v ++ "\x27 object has no attribute \x27get\x27")

mutual

/-- Python `str`/`repr` of a value, as interpolated into the analysis
prompts by the f-strings (`{jobs}`, `{industries}`). -/
def pyRepr : PyVal → String
  | PyVal.none => "None"
  | PyVal.bool true => "True"
  | PyVal.bool false => "False"
  | PyVal.int n => toString n
  | PyVal.str s => "\x27" ++ s ++ "\x27"
  | PyVal.list xs => "[" ++ pyReprList xs ++ "]"
  | PyVal.dict es => "\x7b" ++ pyReprDict es ++ "\x7d"

/-- Comma-separated reprs of a Python list's elements. -/
def pyReprList : List PyVal → String
  | [] => ""
  | [x] => pyRepr x
  | x :: y :: xs => pyRepr x ++ ", " ++ pyReprList (y :: xs)

/-- Comma-separated `'key': value` reprs of a Python dict's entries. -/
def pyReprDict : List (String × PyVal) → String
  | [] => ""
  | [(k, v)] => "\x27" ++ k ++ "\x27: " ++ pyRepr v
  | (k, v) :: e :: es => "\x27" ++ k ++ "\x27: " ++ pyRepr v ++ ", " ++ pyReprDict (e :: es)

end

/-- Python `s.lower()` (character-wise over the string's characters). -/
def pyLower (s : String) : String :=
  String.mk (s.data.map Char.toLower)

/-- Python `s.replace(old, new)` for single-character `old` and `new`
(character-wise substitution, which coincides with `str.replace` for
one-character patterns). -/
def pyReplaceChar (s : String) (old new : Char) : String :=
  String.mk (s.data.map (fun c => if c = old then new else c))

/-- The external providers, as oracles: `extract` is
`self.firecrawl.extract(urls=…, params={'prompt': …})` (the JSON schema
argument is a constant not inspected again by the code and is omitted);
`run` is `self.agent.run(prompt).content`.  An `Except.error e` models
the call raising an exception with `str(exception) = e`. -/
structure Providers where
  extract : List String → String → Except String PyVal
  run : String → Except String String

/-- The three job-site URLs built by `find_jobs` from the normalized
title and location (lowercase, spaces→hyphens). -/
def jobSearchUrls (job_title location : String) : List String :=
  let formatted_job_title := pyReplaceChar (pyLower job_title) ' ' '-'
  let formatted_location := pyReplaceChar (pyLower location) ' ' '-'
  [ "https://www.naukri.com/" ++ formatted_job_title ++ "-jobs-in-" ++ formatted_location
  , "https://www.indeed.com/jobs?q=" ++ formatted_job_title ++ "&l=" ++ formatted_location
  , "https://www.monster.com/jobs/search/?q=" ++ formatted_job_title ++ "&where=" ++ formatted_location ]

/-- The extraction prompt of `find_jobs` (f-string embedding the
original, non-normalized criteria). -/
def jobExtractPrompt (job_title location : String) (experience_years : Int)
    (skills_string : String) : String :=
  "Extract job postings by region, roles, job titles, and experience from these job sites.\n                    \n                    Look for jobs that match these criteria:\n                    - Job Title: Should be related to "
    ++ job_title
    ++ "\n                    - Location: "
    ++ location
    ++ " (include remote jobs if available)\n                    - Experience: Around "
    ++ toString experience_years
    ++ " years\n                    - Skills: Should match at least some of these skills: "
    ++ skills_string
    ++ "\n                    - Job Type: Full-time, Part-time, Contract, Temporary, Internship\n                    \n                    For each job posting, extract:\n                    - region: The broader region or area where the job is located (e.g., \"Northeast\", \"West Coast\", \"Midwest\")\n                    - role: The specific role or function (e.g., \"Frontend Developer\", \"Data Analyst\")\n                    - job_title: The exact title of the job\n                    - experience: The experience requirement in years or level (e.g., \"3-5 years\", \"Senior\")\n                    - job_link: The link to the job posting\n                    \n                    IMPORTANT: Return data for at least 3 different job opportunities. MAXIMUM 10.\n                    "

/-- The fixed tail of the analysis prompt of `find_jobs`, after the last
f-string interpolation.  It carries the four required section markers. -/
def jobAnalysisPromptTail : String :=
  "\n                   - Job Type: Full-time, Part-time, Contract, Temporary, Internship\n                2. DO NOT create new job listings\n                3. From the matching jobs, select 5-6 jobs that best match the user\x27s skills and experience\n\n                Please provide your analysis in this format:\n                \n                💼 SELECTED JOB OPPORTUNITIES\n                • List only 5-6 best matching jobs\n                • For each job include:\n                  - Job Title and Role\n                  - Region/Location\n                  - Experience Required\n                  - Pros and Cons\n                  - Job Link\n                🔍 SKILLS MATCH ANALYSIS\n                • Compare the selected jobs based on:\n                  - Skills match with user\x27s profile\n                  - Experience requirements\n                  - Growth potential\n\n                💡 RECOMMENDATIONS\n                • Top 3 jobs from the selection with reasoning\n                • Career growth potential\n                • Points to consider before applying\n\n                📝 APPLICATION TIPS\n                • Job-specific application strategies\n                • Resume customization tips for these roles\n\n                Format your response in a clear, structured way using the above sections.\n                "

/-- The analysis prompt of `find_jobs` (f-string embedding `str(jobs)`
and the original criteria). -/
def jobAnalysisPrompt (jobsStr job_title location : String) (experience_years : Int)
    (skills_string : String) : String :=
  "As a career expert, analyze these job opportunities:\n\n                Jobs Found in json format:\n                "
    ++ jobsStr
    ++ "\n\n                **IMPORTANT INSTRUCTIONS:**\n                1. ONLY analyze jobs from the above JSON data that match the user\x27s requirements:\n                   - Job Title: Related to "
    ++ job_title
    ++ "\n                   - Location/Region: Near "
    ++ location
    ++ "\n                   - Experience: Around "
    ++ toString experience_years
    ++ " years\n                   - Skills: "
    ++ skills_string
    ++ jobAnalysisPromptTail

/-- The fixed "no results" message of `find_jobs`. -/
def noResultsMessage : String :=
  "No job listings found matching your criteria. Try adjusting your search parameters or try different job sites."

/-- The error string `find_jobs` builds from a caught exception. -/
def jobErrorMessage (e : String) : String :=
  "An error occurred while searching for jobs: " ++ e
    ++ "\n\nPlease try again with different search parameters or check if the job sites are supported by Firecrawl."

/-- `JobHuntingAgent.find_jobs`.  Returns the string the Python method
returns, paired with the number of language-model invocations made. -/
def find_jobs (p : Providers) (job_title location : String)
    (experience_years : Int) (skills : List String) : String × Nat :=
  let skills_string := String.intercalate ", " skills
  let urls := jobSearchUrls job_title location
  match p.extract urls (jobExtractPrompt job_title location experience_years skills_string) with
  | Except.error e => (jobErrorMessage e, 0)
  | Except.ok raw =>
    if isDict raw && truthy (pyGet raw "success") then
      match pyGetItem raw "data" with
      | Except.error e => (jobErrorMessage e, 0)
      | Except.ok data =>
        match pyMethodGet data "job_postings" (PyVal.list []) with
        | Except.error e => (jobErrorMessage e, 0)
        | Except.ok jobs =>
          if !truthy jobs then (noResultsMessage, 0)
          else
            match p.run (jobAnalysisPrompt (pyRepr jobs) job_title location
                experience_years skills_string) with
            | Except.error e => (jobErrorMessage e, 1)
            | Except.ok content => (content, 1)
    else
      (noResultsMessage, 0)

/-- The two salary/trend-site URLs built by `get_industry_trends`. -/
def industryTrendUrls (job_category : String) : List String :=
  [ "https://www.payscale.com/research/US/Job=" ++ pyReplaceChar job_category ' ' '_' ++ "/Salary"
  , "https://www.glassdoor.com/Salaries/" ++ pyReplaceChar (pyLower job_category) ' ' '-'
      ++ "-salary-SRCH_KO0," ++ toString job_category.length ++ ".htm" ]

/-- The extraction prompt of `get_industry_trends`. -/
def trendExtractPrompt (job_category : String) : String :=
  "Extract industry trends data for the "
    ++ job_category
    ++ " industry. \n                    \n                    For each industry trend, extract:\n                    - industry: The specific industry or sub-category\n                    - avg_salary: The average salary in this industry (as a number)\n                    - growth_rate: The growth rate of this industry (as a number)\n                    - demand_level: The demand level (e.g., \"High\", \"Medium\", \"Low\")\n                    - top_skills: A list of top skills in demand for this industry\n                    \n                    IMPORTANT: \n                    - Extract data for at least 3-5 different roles or sub-categories within this industry\n                    - Include salary trends, growth rate, and demand level\n                    - Identify top skills in demand for this industry\n                    "

/-- The analysis prompt of `get_industry_trends` (embedding
`str(industries)` and the category). -/
def trendAnalysisPrompt (industriesStr job_category : String) : String :=
  "As a career expert, analyze these industry trends for "
    ++ job_category
    ++ ":\n\n                    "
    ++ industriesStr
    ++ "\n\n                    Please provide:\n                    1. A bullet-point summary of the salary and demand trends\n                    2. Identify the top skills in demand for this industry\n                    3. Career growth opportunities:\n                       - Roles with highest growth potential\n                       - Emerging specializations\n                       - Skills with increasing demand\n                    4. Specific advice for job seekers based on these trends\n\n                    Format the response as follows:\n                    \n                    📊 INDUSTRY TRENDS SUMMARY\n                    • [Bullet points for salary and demand trends]\n\n                    🔥 TOP SKILLS IN DEMAND\n                    • [Bullet points for most sought-after skills]\n\n                    📈 CAREER GROWTH OPPORTUNITIES\n                    • [Bullet points with growth insights]\n\n                    🎯 RECOMMENDATIONS FOR JOB SEEKERS\n                    • [Bullet points with specific advice]\n                    "

/-- The "no data" message returned when extraction succeeded but the
`industry_trends` list is empty (line 199 of the source). -/
def trendsNoDataEmptyMessage (job_category : String) : String :=
  "No industry trends data available for " ++ job_category ++ ". Try a different industry category."

/-- The "no data" message returned when the extraction response is not a
successful dict (line 233 of the source). -/
def trendsNoDataFailMessage (job_category : String) : String :=
  "No industry trends data available for " ++ job_category ++ ". Try a different industry category."

/-- The error string `get_industry_trends` builds from a caught exception. -/
def trendErrorMessage (e : String) : String :=
  "An error occurred while fetching industry trends: " ++ e
    ++ "\n\nPlease try again with a different industry category or check if the sites are supported by Firecrawl."

/-- `JobHuntingAgent.get_industry_trends`.  Returns the string the
Python method returns, paired with the number of model invocations. -/
def get_industry_trends (p : Providers) (job_category : String) : String × Nat :=
  let urls := industryTrendUrls job_category
  match p.extract urls (trendExtractPrompt job_category) with
  | Except.error e => (trendErrorMessage e, 0)
  | Except.ok raw =>
    if isDict raw && truthy (pyGet raw "success") then
      match pyGetItem raw "data" with
      | Except.error e => (trendErrorMessage e, 0)
      | Except.ok data =>
        match pyMethodGet data "industry_trends" (PyVal.list []) with
        | Except.error e => (trendErrorMessage e, 0)
        | Except.ok industries =>
          if !truthy industries then (trendsNoDataEmptyMessage job_category, 0)
          else
            match p.run (trendAnalysisPrompt (pyRepr industries) job_category) with
            | Except.error e => (trendErrorMessage e, 1)
            | Except.ok content => (content, 1)
    else
      (trendsNoDataFailMessage job_category, 0)

/-- `needle in hay` for Python strings: `needle.data` is a contiguous
infix of `hay.data`. -/
def strContainsSub (hay needle : String) : Prop :=
  needle.data <:+: hay.data

/-- `hay.startswith(pre)`: `pre.data` is a prefix of `hay.data`. -/
def strHasPrefix (hay pre : String) : Prop :=
  pre.data <+: hay.data

/-- The marker `main` searches for to classify an orchestrator result as
an error (`"An error occurred" in job_results`). -/
def errorMarker : String := "An error occurred"

/-- UI events emitted by the search-button block of `main`, in order. -/
inductive UIEvent where
  | jobError : String → UIEvent
  | jobSuccess : String → UIEvent
  | trendsInvoked : String → UIEvent
  | trendsError : String → UIEvent
  | trendsSuccess : String → UIEvent
deriving DecidableEq

/-- The search-button block of `main` (source lines 384–410): run the
job search, classify its result by the error marker; on error show the
error banner and stop; on success render the narrative, then invoke the
trend analysis and classify its result the same way. -/
def mainFlow (p : Providers) (job_title location : String) (experience_years : Int)
    (skills : List String) (job_category : String) : List UIEvent :=
  let job_results := (find_jobs p job_title location experience_years skills).1
  if errorMarker.data <:+: job_results.data then
    [UIEvent.jobError job_results]
  else
    let industry_trends := (get_industry_trends p job_category).1
    UIEvent.jobSuccess job_results
      :: UIEvent.trendsInvoked job_category
      :: (if errorMarker.data <:+: industry_trends.data then
            [UIEvent.trendsError industry_trends]
          else
            [UIEvent.trendsSuccess industry_trends])

instance (hay needle : String) : Decidable (strContainsSub hay needle) :=
  inferInstanceAs (Decidable (needle.data <:+: hay.data))

instance (hay pre : String) : Decidable (strHasPrefix hay pre) :=
  inferInstanceAs (Decidable (pre.data <+: hay.data))

/-- Extraction oracle returning a successful response with an empty
`job_postings` list. -/
def w1Providers : Providers where
  extract := fun _ _ => Except.ok (PyVal.dict
    [("success", PyVal.bool true),
     ("data", PyVal.dict [("job_postings", PyVal.list [])]),
     ("status", PyVal.str "completed")])
  run := fun _ => Except.ok "unused narrative"

/-- Extraction oracle returning a response with `success` false. -/
def w2Providers : Providers where
  extract := fun _ _ => Except.ok (PyVal.dict
    [("success", PyVal.bool false), ("status", PyVal.str "failed")])
  run := fun _ => Except.ok "unused narrative"

/-- Extraction oracle returning a non-dict (typed response object). -/
def w9Providers : Providers where
  extract := fun _ _ => Except.ok (PyVal.str "FirecrawlResponse(success=True)")
  run := fun _ => Except.ok "unused narrative"

/-- Extraction oracle that raises (`str(e) = "boom"`). -/
def w3aProviders : Providers where
  extract := fun _ _ => Except.error "boom"
  run := fun _ => Except.ok "unused narrative"

/-- Extraction oracle returning a successful response with non-empty
postings and trends, paired with a model oracle that raises. -/
def w3bProviders : Providers where
  extract := fun _ _ => Except.ok (PyVal.dict
    [("success", PyVal.bool true),
     ("data", PyVal.dict
       [("job_postings", PyVal.list [PyVal.dict [("job_title", PyVal.str "Backend Developer")]]),
        ("industry_trends", PyVal.list [PyVal.dict [("industry", PyVal.str "Software")]])])])
  run := fun _ => Except.error "rate limit exceeded"

/-- Extraction oracle: dict with `success` true but no `data` key. -/
def c5aProviders : Providers where
  extract := fun _ _ => Except.ok (PyVal.dict
    [("success", PyVal.bool true), ("status", PyVal.str "completed")])
  run := fun _ => Except.ok "unused narrative"

/-- Extraction oracle: truthy non-boolean `success` flag with non-empty
postings. -/
def c5bProviders : Providers where
  extract := fun _ _ => Except.ok (PyVal.dict
    [("success", PyVal.int 1),
     ("data", PyVal.dict
       [("job_postings", PyVal.list [PyVal.dict [("job_title", PyVal.str "ML Engineer")]])])])
  run := fun _ => Except.ok "model narrative"

/-- Extraction oracle: dict with no `success` key at all. -/
def w5aProviders : Providers where
  extract := fun _ _ => Except.ok (PyVal.dict [("status", PyVal.str "completed")])
  run := fun _ => Except.ok "unused narrative"

/-- Extraction oracle: successful dict whose `data` has no
`job_postings` key. -/
def w5bProviders : Providers where
  extract := fun _ _ => Except.ok (PyVal.dict
    [("success", PyVal.bool true), ("data", PyVal.dict [("status", PyVal.str "ok")])])
  run := fun _ => Except.ok "unused narrative"

/-- Extraction oracle that raises, for exercising the error branch of
the main flow. -/
def w6Providers : Providers where
  extract := fun _ _ => Except.error "connection reset"
  run := fun _ => Except.ok "unused narrative"

/-- Extraction oracle: unsuccessful trends response (`success` false). -/
def w10aProviders : Providers where
  extract := fun _ _ => Except.ok (PyVal.dict
    [("success", PyVal.bool false), ("status", PyVal.str "failed")])
  run := fun _ => Except.ok "unused narrative"

/-- Extraction oracle: successful trends response whose
`industry_trends` list is empty. -/
def w10bProviders : Providers where
  extract := fun _ _ => Except.ok (PyVal.dict
    [("success", PyVal.bool true),
     ("data", PyVal.dict [("industry_trends", PyVal.list [])])])
  run := fun _ => Except.ok "unused narrative"

/-- First required section marker of the job analysis narrative. -/
def marker1 : String := "💼 SELECTED JOB OPPORTUNITIES"

/-- Second required section marker. -/
def marker2 : String := "🔍 SKILLS MATCH ANALYSIS"

/-- Third required section marker. -/
def marker3 : String := "💡 RECOMMENDATIONS"

/-- Fourth required section marker. -/
def marker4 : String := "📝 APPLICATION TIPS"

/-- `s` contains the four markers, in that order (possibly with material
between and around them). -/
def containsInOrder4 (s mk1 mk2 mk3 mk4 : String) : Prop :=
  ∃ a b c d e : String,
    s = a ++ (mk1 ++ (b ++ (mk2 ++ (c ++ (mk3 ++ (d ++ (mk4 ++ e)))))))

/-- Extraction oracle with non-empty postings, paired with a model
oracle whose narrative ignores the requested section format. -/
def c8Providers : Providers where
  extract := fun _ _ => Except.ok (PyVal.dict
    [("success", PyVal.bool true),
     ("data", PyVal.dict
       [("job_postings", PyVal.list [PyVal.dict [("job_title", PyVal.str "Frontend Developer")]])])])
  run := fun _ => Except.ok "Here are some jobs I found."

/-- Extraction oracle with non-empty postings, paired with a compliant
model oracle. -/
def w8Providers : Providers where
  extract := fun _ _ => Except.ok (PyVal.dict
    [("success", PyVal.bool true),
     ("data", PyVal.dict
       [("job_postings", PyVal.list [PyVal.dict [("job_title", PyVal.str "Frontend Developer")]])])])
  run := fun _ => Except.ok "a narrative"

theorem pyGet_isDict (v : PyVal) (k : String) (b : Bool)
    (h : pyGet v k = PyVal.bool b) : isDict v = true := by
  cases v <;> simp [pyGet, isDict] at h ⊢

/-- C1: if the extraction response is a dict with `success` true whose
`job_postings` list is empty, `find_jobs` returns the fixed no-results
message and the language model is never invoked (call count 0). -/
theorem claim1_empty_postings_no_model_call
    (p : Providers) (job_title location : String) (experience_years : Int)
    (skills : List String) (raw data : PyVal)
    (hraw : p.extract (jobSearchUrls job_title location)
        (jobExtractPrompt job_title location experience_years (String.intercalate ", " skills))
        = Except.ok raw)
    (hsucc : pyGet raw "success" = PyVal.bool true)
    (hdata : pyGetItem raw "data" = Except.ok data)
    (hjobs : pyMethodGet data "job_postings" (PyVal.list []) = Except.ok (PyVal.list [])) :
    find_jobs p job_title location experience_years skills = (noResultsMessage, 0) := by
  have hd : isDict raw = true := pyGet_isDict raw "success" true hsucc
  simp [find_jobs, hraw, hd, hsucc, hdata, hjobs, truthy]

theorem claim1_witness :
    find_jobs w1Providers "Software Engineer" "Bangalore" 2 ["Python", "SQL"]
      = (noResultsMessage, 0) :=
  claim1_empty_postings_no_model_call w1Providers "Software Engineer" "Bangalore" 2
    ["Python", "SQL"]
    (PyVal.dict
      [("success", PyVal.bool true),
       ("data", PyVal.dict [("job_postings", PyVal.list [])]),
       ("status", PyVal.str "completed")])
    (PyVal.dict [("job_postings", PyVal.list [])]) rfl rfl rfl rfl

/-- C2: if the extraction response carries `success = false`, `find_jobs`
returns its fixed no-results message, `get_industry_trends` returns its
fixed no-data message, and neither invokes the language model. -/
theorem claim2_success_false_no_model_call
    (p : Providers) (job_title location : String) (experience_years : Int)
    (skills : List String) (job_category : String) (raw₁ raw₂ : PyVal) :
    (p.extract (jobSearchUrls job_title location)
        (jobExtractPrompt job_title location experience_years (String.intercalate ", " skills))
        = Except.ok raw₁
      → pyGet raw₁ "success" = PyVal.bool false
      → find_jobs p job_title location experience_years skills = (noResultsMessage, 0))
    ∧ (p.extract (industryTrendUrls job_category) (trendExtractPrompt job_category)
        = Except.ok raw₂
      → pyGet raw₂ "success" = PyVal.bool false
      → get_industry_trends p job_category = (trendsNoDataFailMessage job_category, 0)) := by
  constructor
  · intro h1 h2
    simp [find_jobs, h1, h2, truthy]
  · intro h1 h2
    simp [get_industry_trends, h1, h2, truthy]

theorem claim2_witness :
    find_jobs w2Providers "Data Analyst" "Mumbai" 3 ["Excel"] = (noResultsMessage, 0)
    ∧ get_industry_trends w2Providers "Finance" = (trendsNoDataFailMessage "Finance", 0) :=
  ⟨(claim2_success_false_no_model_call w2Providers "Data Analyst" "Mumbai" 3 ["Excel"]
      "Finance" (PyVal.dict [("success", PyVal.bool false), ("status", PyVal.str "failed")])
      (PyVal.dict [("success", PyVal.bool false), ("status", PyVal.str "failed")])).1 rfl rfl,
   (claim2_success_false_no_model_call w2Providers "Data Analyst" "Mumbai" 3 ["Excel"]
      "Finance" (PyVal.dict [("success", PyVal.bool false), ("status", PyVal.str "failed")])
      (PyVal.dict [("success", PyVal.bool false), ("status", PyVal.str "failed")])).2 rfl rfl⟩

/-- C7: URL construction is deterministic and normalizes by lowercasing
and hyphenating spaces: for title "Software Engineer" and location
"Bangalore" the tokens "software-engineer" and "bangalore" appear in
each of the three constructed site URLs. -/
theorem claim7_url_normalization :
    pyReplaceChar (pyLower "Software Engineer") ' ' '-' = "software-engineer"
    ∧ pyReplaceChar (pyLower "Bangalore") ' ' '-' = "bangalore"
    ∧ (jobSearchUrls "Software Engineer" "Bangalore").length = 3
    ∧ ∀ u ∈ jobSearchUrls "Software Engineer" "Bangalore",
        strContainsSub u "software-engineer" ∧ strContainsSub u "bangalore" := by
  decide

/-- C9: if the extraction provider returns a value that is not a dict,
`find_jobs` treats it as zero results: the fixed no-results message, no
model call. -/
theorem claim9_non_dict_response
    (p : Providers) (job_title location : String) (experience_years : Int)
    (skills : List String) (raw : PyVal)
    (hraw : p.extract (jobSearchUrls job_title location)
        (jobExtractPrompt job_title location experience_years (String.intercalate ", " skills))
        = Except.ok raw)
    (hnd : isDict raw = false) :
    find_jobs p job_title location experience_years skills = (noResultsMessage, 0) := by
  simp [find_jobs, hraw, hnd]

theorem claim9_witness :
    find_jobs w9Providers "Software Engineer" "Bangalore" 2 ["Python"]
      = (noResultsMessage, 0) :=
  claim9_non_dict_response w9Providers "Software Engineer" "Bangalore" 2 ["Python"]
    (PyVal.str "FirecrawlResponse(success=True)") rfl rfl

/-- C4: for every `SearchCriteria` (in particular an empty skills list)
and every provider behavior, `find_jobs` terminates with a string that
is either the fixed no-results message, a formatted error string, or a
narrative returned by the model — it never propagates an exception. -/
theorem claim4_find_jobs_total_trichotomy
    (p : Providers) (job_title location : String) (experience_years : Int)
    (skills : List String) :
    (find_jobs p job_title location experience_years skills).1 = noResultsMessage
    ∨ (∃ e, (find_jobs p job_title location experience_years skills).1 = jobErrorMessage e)
    ∨ (∃ prompt c, p.run prompt = Except.ok c
        ∧ (find_jobs p job_title location experience_years skills).1 = c) := by
  rcases hx : p.extract (jobSearchUrls job_title location)
      (jobExtractPrompt job_title location experience_years (String.intercalate ", " skills))
    with e | raw
  · exact Or.inr (Or.inl ⟨e, by simp [find_jobs, hx]⟩)
  · by_cases hc : (isDict raw && truthy (pyGet raw "success")) = true
    · rcases hd : pyGetItem raw "data" with e | data
      · exact Or.inr (Or.inl ⟨e, by simp [find_jobs, hx, hc, hd]⟩)
      · rcases hj : pyMethodGet data "job_postings" (PyVal.list []) with e | jobs
        · exact Or.inr (Or.inl ⟨e, by simp [find_jobs, hx, hc, hd, hj]⟩)
        · by_cases ht : truthy jobs = true
          · rcases hr : p.run (jobAnalysisPrompt (pyRepr jobs) job_title location
                experience_years (String.intercalate ", " skills)) with e | c
            · exact Or.inr (Or.inl ⟨e, by simp [find_jobs, hx, hc, hd, hj, ht, hr]⟩)
            · exact Or.inr (Or.inr ⟨_, c, hr, by simp [find_jobs, hx, hc, hd, hj, ht, hr]⟩)
          · have ht' : truthy jobs = false := by simpa using ht
            exact Or.inl (by simp [find_jobs, hx, hc, hd, hj, ht'])
    · have hc' : (isDict raw && truthy (pyGet raw "success")) = false := by simpa using hc
      exact Or.inl (by simp [find_jobs, hx, hc'])

/-- C3: every exception raised by the extraction call or the model call
inside `find_jobs` or `get_industry_trends` is caught and converted to
a returned string that begins with the error marker `"An error
occurred"` and contains the original exception text. -/
theorem claim3_exceptions_surface_as_marked_strings
    (p : Providers) (job_title location : String) (experience_years : Int)
    (skills : List String) (job_category e : String) :
    strHasPrefix (jobErrorMessage e) errorMarker
    ∧ strContainsSub (jobErrorMessage e) e
    ∧ strHasPrefix (trendErrorMessage e) errorMarker
    ∧ strContainsSub (trendErrorMessage e) e
    ∧ (p.extract (jobSearchUrls job_title location)
        (jobExtractPrompt job_title location experience_years (String.intercalate ", " skills))
        = Except.error e
      → find_jobs p job_title location experience_years skills = (jobErrorMessage e, 0))
    ∧ (p.extract (industryTrendUrls job_category) (trendExtractPrompt job_category)
        = Except.error e
      → get_industry_trends p job_category = (trendErrorMessage e, 0))
    ∧ (∀ raw data jobs,
        p.extract (jobSearchUrls job_title location)
          (jobExtractPrompt job_title location experience_years (String.intercalate ", " skills))
          = Except.ok raw
      → (isDict raw && truthy (pyGet raw "success")) = true
      → pyGetItem raw "data" = Except.ok data
      → pyMethodGet data "job_postings" (PyVal.list []) = Except.ok jobs
      → truthy jobs = true
      → p.run (jobAnalysisPrompt (pyRepr jobs) job_title location experience_years
          (String.intercalate ", " skills)) = Except.error e
      → find_jobs p job_title location experience_years skills = (jobErrorMessage e, 1))
    ∧ (∀ raw data industries,
        p.extract (industryTrendUrls job_category) (trendExtractPrompt job_category)
          = Except.ok raw
      → (isDict raw && truthy (pyGet raw "success")) = true
      → pyGetItem raw "data" = Except.ok data
      → pyMethodGet data "industry_trends" (PyVal.list []) = Except.ok industries
      → truthy industries = true
      → p.run (trendAnalysisPrompt (pyRepr industries) job_category) = Except.error e
      → get_industry_trends p job_category = (trendErrorMessage e, 1)) := by
  refine ⟨?_, ?_, ?_, ?_, ?_, ?_, ?_, ?_⟩
  · show errorMarker.data <+: (jobErrorMessage e).data
    rw [jobErrorMessage, String.data_append, String.data_append]
    exact List.IsPrefix.trans
      (List.IsPrefix.trans (by decide) (List.prefix_append _ _))
      (List.prefix_append _ _)
  · exact ⟨"An error occurred while searching for jobs: ".data,
      "\n\nPlease try again with different search parameters or check if the job sites are supported by Firecrawl.".data,
      by simp [jobErrorMessage, String.data_append]⟩
  · show errorMarker.data <+: (trendErrorMessage e).data
    rw [trendErrorMessage, String.data_append, String.data_append]
    exact List.IsPrefix.trans
      (List.IsPrefix.trans (by decide) (List.prefix_append _ _))
      (List.prefix_append _ _)
  · exact ⟨"An error occurred while fetching industry trends: ".data,
      "\n\nPlease try again with a different industry category or check if the sites are supported by Firecrawl.".data,
      by simp [trendErrorMessage, String.data_append]⟩
  · intro h
    simp [find_jobs, h]
  · intro h
    simp [get_industry_trends, h]
  · intro raw data jobs h1 h2 h3 h4 h5 h6
    simp [find_jobs, h1, h2, h3, h4, h5, h6]
  · intro raw data industries h1 h2 h3 h4 h5 h6
    simp [get_industry_trends, h1, h2, h3, h4, h5, h6]

theorem claim3_witness :
    strHasPrefix (jobErrorMessage "boom") errorMarker
    ∧ strContainsSub (jobErrorMessage "boom") "boom"
    ∧ find_jobs w3aProviders "Software Engineer" "Pune" 2 ["Python"]
        = (jobErrorMessage "boom", 0)
    ∧ get_industry_trends w3aProviders "Finance" = (trendErrorMessage "boom", 0)
    ∧ find_jobs w3bProviders "Software Engineer" "Pune" 2 ["Python"]
        = (jobErrorMessage "rate limit exceeded", 1)
    ∧ get_industry_trends w3bProviders "Finance"
        = (trendErrorMessage "rate limit exceeded", 1) :=
  ⟨(claim3_exceptions_surface_as_marked_strings w3aProviders "Software Engineer" "Pune" 2
      ["Python"] "Finance" "boom").1,
   (claim3_exceptions_surface_as_marked_strings w3aProviders "Software Engineer" "Pune" 2
      ["Python"] "Finance" "boom").2.1,
   (claim3_exceptions_surface_as_marked_strings w3aProviders "Software Engineer" "Pune" 2
      ["Python"] "Finance" "boom").2.2.2.2.1 rfl,
   (claim3_exceptions_surface_as_marked_strings w3aProviders "Software Engineer" "Pune" 2
      ["Python"] "Finance" "boom").2.2.2.2.2.1 rfl,
   (claim3_exceptions_surface_as_marked_strings w3bProviders "Software Engineer" "Pune" 2
      ["Python"] "Finance" "rate limit exceeded").2.2.2.2.2.2.1
      (PyVal.dict
        [("success", PyVal.bool true),
         ("data", PyVal.dict
           [("job_postings", PyVal.list [PyVal.dict [("job_title", PyVal.str "Backend Developer")]]),
            ("industry_trends", PyVal.list [PyVal.dict [("industry", PyVal.str "Software")]])])])
      (PyVal.dict
        [("job_postings", PyVal.list [PyVal.dict [("job_title", PyVal.str "Backend Developer")]]),
         ("industry_trends", PyVal.list [PyVal.dict [("industry", PyVal.str "Software")]])])
      (PyVal.list [PyVal.dict [("job_title", PyVal.str "Backend Developer")]])
      rfl rfl rfl rfl rfl rfl,
   (claim3_exceptions_surface_as_marked_strings w3bProviders "Software Engineer" "Pune" 2
      ["Python"] "Finance" "rate limit exceeded").2.2.2.2.2.2.2
      (PyVal.dict
        [("success", PyVal.bool true),
         ("data", PyVal.dict
           [("job_postings", PyVal.list [PyVal.dict [("job_title", PyVal.str "Backend Developer")]]),
            ("industry_trends", PyVal.list [PyVal.dict [("industry", PyVal.str "Software")]])])])
      (PyVal.dict
        [("job_postings", PyVal.list [PyVal.dict [("job_title", PyVal.str "Backend Developer")]]),
         ("industry_trends", PyVal.list [PyVal.dict [("industry", PyVal.str "Software")]])])
      (PyVal.list [PyVal.dict [("industry", PyVal.str "Software")]])
      rfl rfl rfl rfl rfl rfl⟩

/-- C5 counterexample: the claim says every shape deviation — in
particular `success` true with the `data` key missing, or a non-boolean
`success` flag — is treated as zero results (empty list, no-results
message).  In fact a missing `data` key under a truthy `success` raises
`KeyError('data')`, which is surfaced as the formatted error string,
and a truthy non-boolean `success` proceeds to invoke the model. -/
theorem claim5_counterexample :
    (find_jobs c5aProviders "Data Scientist" "Pune" 3 ["SQL"]).1
      = jobErrorMessage "\x27data\x27"
    ∧ jobErrorMessage "\x27data\x27" ≠ noResultsMessage
    ∧ find_jobs c5bProviders "Data Scientist" "Pune" 3 ["SQL"] = ("model narrative", 1)
    ∧ ("model narrative" : String) ≠ noResultsMessage :=
  ⟨rfl, by decide, rfl, by decide⟩

/-- C5 amended: `find_jobs` reads the `success` flag with Python
truthiness.  A missing `success` key or a falsy `success` value is
treated as zero results (no-results message, no model call); a missing
`job_postings` key under a truthy `success` likewise yields the
no-results message.  But a truthy `success` with a missing `data` key
raises `KeyError('data')`, caught and surfaced as the formatted error
string, and a truthy non-boolean `success` value proceeds as success:
with postings present the model is invoked and its narrative
returned. -/
theorem claim5_amended_shape_deviations
    (p : Providers) (job_title location : String) (experience_years : Int)
    (skills : List String) (es : List (String × PyVal))
    (hraw : p.extract (jobSearchUrls job_title location)
        (jobExtractPrompt job_title location experience_years (String.intercalate ", " skills))
        = Except.ok (PyVal.dict es)) :
    (es.lookup "success" = Option.none
      → find_jobs p job_title location experience_years skills = (noResultsMessage, 0))
    ∧ (∀ v, es.lookup "success" = some v → truthy v = false
      → find_jobs p job_title location experience_years skills = (noResultsMessage, 0))
    ∧ (∀ v ds, es.lookup "success" = some v → truthy v = true
      → es.lookup "data" = some (PyVal.dict ds)
      → ds.lookup "job_postings" = Option.none
      → find_jobs p job_title location experience_years skills = (noResultsMessage, 0))
    ∧ (∀ v, es.lookup "success" = some v → truthy v = true
      → es.lookup "data" = Option.none
      → find_jobs p job_title location experience_years skills
          = (jobErrorMessage "\x27data\x27", 0))
    ∧ (∀ v ds jobs c, es.lookup "success" = some v → truthy v = true
      → es.lookup "data" = some (PyVal.dict ds)
      → ds.lookup "job_postings" = some jobs
      → truthy jobs = true
      → p.run (jobAnalysisPrompt (pyRepr jobs) job_title location experience_years
          (String.intercalate ", " skills)) = Except.ok c
      → find_jobs p job_title location experience_years skills = (c, 1)) := by
  refine ⟨?_, ?_, ?_, ?_, ?_⟩
  · intro h
    simp [find_jobs, hraw, pyGet, isDict, h, truthy]
  · intro v h hv
    simp [find_jobs, hraw, pyGet, isDict, h, hv]
  · intro v ds h hv hd hp
    simp [find_jobs, hraw, pyGet, pyGetItem, pyMethodGet, isDict, h, hv, hd, hp, truthy]
  · intro v h hv hd
    simp [find_jobs, hraw, pyGet, pyGetItem, isDict, h, hv, hd]
  · intro v ds jobs c h hv hd hp ht hr
    simp [find_jobs, hraw, pyGet, pyGetItem, pyMethodGet, isDict, h, hv, hd, hp, ht, hr]

theorem claim5_witness :
    find_jobs w5aProviders "QA Engineer" "Delhi" 1 [] = (noResultsMessage, 0)
    ∧ find_jobs w5bProviders "QA Engineer" "Delhi" 1 [] = (noResultsMessage, 0)
    ∧ find_jobs c5aProviders "QA Engineer" "Delhi" 1 []
        = (jobErrorMessage "\x27data\x27", 0) :=
  ⟨(claim5_amended_shape_deviations w5aProviders "QA Engineer" "Delhi" 1 []
      [("status", PyVal.str "completed")] rfl).1 rfl,
   (claim5_amended_shape_deviations w5bProviders "QA Engineer" "Delhi" 1 []
      [("success", PyVal.bool true), ("data", PyVal.dict [("status", PyVal.str "ok")])]
      rfl).2.2.1 (PyVal.bool true) [("status", PyVal.str "ok")] rfl rfl rfl rfl,
   (claim5_amended_shape_deviations c5aProviders "QA Engineer" "Delhi" 1 []
      [("success", PyVal.bool true), ("status", PyVal.str "completed")] rfl).2.2.2.1
      (PyVal.bool true) rfl rfl rfl⟩

/-- C6: in the search-button block of `main`, the trend analysis is
invoked only when the job-search result is not classified as an error,
and only after the job search has completed: whenever a
`trendsInvoked` event occurs it is immediately preceded by the
`jobSuccess` event for the job-search result. -/
theorem claim6_trends_only_after_success
    (p : Providers) (job_title location : String) (experience_years : Int)
    (skills : List String) (job_category : String) :
    (errorMarker.data <:+: ((find_jobs p job_title location experience_years skills).1).data
      → ∀ c, UIEvent.trendsInvoked c
          ∉ mainFlow p job_title location experience_years skills job_category)
    ∧ (∀ c, UIEvent.trendsInvoked c
          ∈ mainFlow p job_title location experience_years skills job_category
      → ¬ (errorMarker.data <:+: ((find_jobs p job_title location experience_years skills).1).data)
        ∧ (mainFlow p job_title location experience_years skills job_category).head?
            = some (UIEvent.jobSuccess (find_jobs p job_title location experience_years skills).1)
        ∧ (mainFlow p job_title location experience_years skills job_category).get? 1
            = some (UIEvent.trendsInvoked job_category)) := by
  by_cases h : errorMarker.data <:+: ((find_jobs p job_title location experience_years skills).1).data
  · constructor
    · intro _ c
      simp [mainFlow, h]
    · intro c hc
      simp [mainFlow, h] at hc
  · constructor
    · intro h' c
      exact absurd h' h
    · intro c _
      refine ⟨h, ?_, ?_⟩ <;> simp [mainFlow, h]

theorem claim6_witness :
    UIEvent.trendsInvoked "Finance"
      ∉ mainFlow w6Providers "Software Engineer" "Bangalore" 2 ["Python"] "Finance" :=
  (claim6_trends_only_after_success w6Providers "Software Engineer" "Bangalore" 2
    ["Python"] "Finance").1 (by decide) "Finance"

/-- C10: the string `get_industry_trends` returns when the extraction
response is unsuccessful or not a dict is identical to the string it
returns when extraction succeeds but `industry_trends` is empty — the
caller cannot tell provider failure from genuinely empty data — and the
message embeds the `job_category` argument rather than being a
constant. -/
theorem claim10_nodata_messages_indistinguishable
    (p₁ p₂ : Providers) (job_category : String) (raw₁ : PyVal)
    (es₂ ds₂ : List (String × PyVal)) :
    trendsNoDataFailMessage job_category = trendsNoDataEmptyMessage job_category
    ∧ strContainsSub (trendsNoDataFailMessage job_category) job_category
    ∧ trendsNoDataFailMessage "Finance" ≠ trendsNoDataFailMessage "Marketing"
    ∧ (p₁.extract (industryTrendUrls job_category) (trendExtractPrompt job_category)
        = Except.ok raw₁
      → (isDict raw₁ && truthy (pyGet raw₁ "success")) = false
      → get_industry_trends p₁ job_category = (trendsNoDataFailMessage job_category, 0))
    ∧ (p₂.extract (industryTrendUrls job_category) (trendExtractPrompt job_category)
        = Except.ok (PyVal.dict es₂)
      → es₂.lookup "success" = some (PyVal.bool true)
      → es₂.lookup "data" = some (PyVal.dict ds₂)
      → ds₂.lookup "industry_trends" = some (PyVal.list [])
      → get_industry_trends p₂ job_category = (trendsNoDataEmptyMessage job_category, 0)) := by
  refine ⟨rfl, ?_, by decide, ?_, ?_⟩
  · exact ⟨"No industry trends data available for ".data,
      ". Try a different industry category.".data,
      by simp [trendsNoDataFailMessage, String.data_append]⟩
  · intro h1 h2
    simp [get_industry_trends, h1, h2]
  · intro h1 h2 h3 h4
    simp [get_industry_trends, h1, h2, h3, h4, pyGet, pyGetItem, pyMethodGet, isDict, truthy]

theorem claim10_witness :
    get_industry_trends w10aProviders "Data Science"
      = (trendsNoDataFailMessage "Data Science", 0)
    ∧ get_industry_trends w10bProviders "Data Science"
      = (trendsNoDataEmptyMessage "Data Science", 0) :=
  ⟨(claim10_nodata_messages_indistinguishable w10aProviders w10bProviders "Data Science"
      (PyVal.dict [("success", PyVal.bool false), ("status", PyVal.str "failed")])
      [("success", PyVal.bool true), ("data", PyVal.dict [("industry_trends", PyVal.list [])])]
      [("industry_trends", PyVal.list [])]).2.2.2.1 rfl rfl,
   (claim10_nodata_messages_indistinguishable w10aProviders w10bProviders "Data Science"
      (PyVal.dict [("success", PyVal.bool false), ("status", PyVal.str "failed")])
      [("success", PyVal.bool true), ("data", PyVal.dict [("industry_trends", PyVal.list [])])]
      [("industry_trends", PyVal.list [])]).2.2.2.2 rfl rfl rfl rfl⟩

set_option maxRecDepth 8192 in
theorem jobAnalysisPromptTail_split :
    jobAnalysisPromptTail
      = "\n                   - Job Type: Full-time, Part-time, Contract, Temporary, Internship\n                2. DO NOT create new job listings\n                3. From the matching jobs, select 5-6 jobs that best match the user\x27s skills and experience\n\n                Please provide your analysis in this format:\n                \n                "
        ++ (marker1
        ++ ("\n                • List only 5-6 best matching jobs\n                • For each job include:\n                  - Job Title and Role\n                  - Region/Location\n                  - Experience Required\n                  - Pros and Cons\n                  - Job Link\n                "
        ++ (marker2
        ++ ("\n                • Compare the selected jobs based on:\n                  - Skills match with user\x27s profile\n                  - Experience requirements\n                  - Growth potential\n\n                "
        ++ (marker3
        ++ ("\n                • Top 3 jobs from the selection with reasoning\n                • Career growth potential\n                • Points to consider before applying\n\n                "
        ++ (marker4
        ++ "\n                • Job-specific application strategies\n                • Resume customization tips for these roles\n\n                Format your response in a clear, structured way using the above sections.\n                "))))))) := by
  rfl

/-- C8 counterexample: the claim says the narrative `find_jobs` returns
for a non-empty postings list contains the four section markers in
order.  The narrative is the model output returned verbatim, so a model
response without the markers is returned as-is. -/
theorem claim8_counterexample :
    (find_jobs c8Providers "Software Engineer" "Bangalore" 2 ["Python"]).1
      = "Here are some jobs I found."
    ∧ ¬ containsInOrder4 "Here are some jobs I found." marker1 marker2 marker3 marker4 := by
  refine ⟨rfl, ?_⟩
  rintro ⟨a, b, c, d, e, h⟩
  have hlen := congrArg String.length h
  simp [String.length_append] at hlen
  have hb : marker1.length + marker2.length + marker3.length + marker4.length
      ≤ ("Here are some jobs I found." : String).length := by
    rw [hlen]
    omega
  revert hb
  decide

/-- C8 amended: when the postings list is non-empty, `find_jobs` sends
the model an instruction prompt that contains the four required section
markers — Selected Opportunities, Skills Match Analysis,
Recommendations, Application Tips — in that order, and returns the
model's narrative text verbatim; the returned narrative itself carries
the markers only insofar as the model honors the instruction. -/
theorem claim8_amended_prompt_markers_and_verbatim_return
    (p : Providers) (jobsStr job_title location : String) (experience_years : Int)
    (skills : List String) :
    containsInOrder4
      (jobAnalysisPrompt jobsStr job_title location experience_years
        (String.intercalate ", " skills))
      marker1 marker2 marker3 marker4
    ∧ (∀ raw data jobs c,
        p.extract (jobSearchUrls job_title location)
          (jobExtractPrompt job_title location experience_years (String.intercalate ", " skills))
          = Except.ok raw
      → (isDict raw && truthy (pyGet raw "success")) = true
      → pyGetItem raw "data" = Except.ok data
      → pyMethodGet data "job_postings" (PyVal.list []) = Except.ok jobs
      → truthy jobs = true
      → p.run (jobAnalysisPrompt (pyRepr jobs) job_title location experience_years
          (String.intercalate ", " skills)) = Except.ok c
      → find_jobs p job_title location experience_years skills = (c, 1)) := by
  constructor
  · refine ⟨"As a career expert, analyze these job opportunities:\n\n                Jobs Found in json format:\n                "
        ++ jobsStr
        ++ "\n\n                **IMPORTANT INSTRUCTIONS:**\n                1. ONLY analyze jobs from the above JSON data that match the user\x27s requirements:\n                   - Job Title: Related to "
        ++ job_title
        ++ "\n                   - Location/Region: Near "
        ++ location
        ++ "\n                   - Experience: Around "
        ++ toString experience_years
        ++ " years\n                   - Skills: "
        ++ String.intercalate ", " skills
        ++ "\n                   - Job Type: Full-time, Part-time, Contract, Temporary, Internship\n                2. DO NOT create new job listings\n                3. From the matching jobs, select 5-6 jobs that best match the user\x27s skills and experience\n\n                Please provide your analysis in this format:\n                \n                ",
      "\n                • List only 5-6 best matching jobs\n                • For each job include:\n                  - Job Title and Role\n                  - Region/Location\n                  - Experience Required\n                  - Pros and Cons\n                  - Job Link\n                ",
      "\n                • Compare the selected jobs based on:\n                  - Skills match with user\x27s profile\n                  - Experience requirements\n                  - Growth potential\n\n                ",
      "\n                • Top 3 jobs from the selection with reasoning\n                • Career growth potential\n                • Points to consider before applying\n\n                ",
      "\n                • Job-specific application strategies\n                • Resume customization tips for these roles\n\n                Format your response in a clear, structured way using the above sections.\n                ", ?_⟩
    simp [jobAnalysisPrompt, jobAnalysisPromptTail_split, String.append_assoc]
  · intro raw data jobs c h1 h2 h3 h4 h5 h6
    simp [find_jobs, h1, h2, h3, h4, h5, h6]

theorem claim8_witness :
    containsInOrder4
      (jobAnalysisPrompt "[]" "Software Engineer" "Bangalore" 2
        (String.intercalate ", " ["Python"]))
      marker1 marker2 marker3 marker4
    ∧ find_jobs w8Providers "Software Engineer" "Bangalore" 2 ["Python"]
        = ("a narrative", 1) :=
  ⟨(claim8_amended_prompt_markers_and_verbatim_return w8Providers "[]" "Software Engineer"
      "Bangalore" 2 ["Python"]).1,
   (claim8_amended_prompt_markers_and_verbatim_return w8Providers "[]" "Software Engineer"
      "Bangalore" 2 ["Python"]).2
      (PyVal.dict
        [("success", PyVal.bool true),
         ("data", PyVal.dict
           [("job_postings", PyVal.list [PyVal.dict [("job_title", PyVal.str "Frontend Developer")]])])])
      (PyVal.dict
        [("job_postings", PyVal.list [PyVal.dict [("job_title", PyVal.str "Frontend Developer")]])])
      (PyVal.list [PyVal.dict [("job_title", PyVal.str "Frontend Developer")]])
      "a narrative" rfl rfl rfl rfl rfl rfl⟩
